import Mathlib

/-!
Shallow embedding of the license-provider repository (license_admin):
the license record model, the store operations of server.py
(get_license_row_by_hash, activate_license), the validation endpoint
validate_license, and the generator of generate_license.py (store_hash,
generate_license).  Timestamps are integers (seconds since epoch, as in the
Python source); the SHA-256 fingerprint hash_key is kept as an explicit
function parameter, since the core logic uses it only as an opaque key
derivation.
-/

namespace LicenseProvider

/-- characters removed by Python str.strip() on the ASCII inputs relevant
here: space, tab, newline, carriage return, vertical tab, form feed. -/
def is_py_space (c : Char) : Bool :=
  c = ' ' || c = '\t' || c = '\n' || c = '\x0d' || c = '\x0b' || c = '\x0c'

/-- list-level strip: drop whitespace from the front, then from the back. -/
def stripList (l : List Char) : List Char :=
  ((l.dropWhile is_py_space).reverse.dropWhile is_py_space).reverse

/-- Python str.strip(): remove leading and trailing whitespace. -/
def strip (s : String) : String :=
  (stripList s.toList).asString

/-- one row of the licenses table of server.py (init_db):
id INTEGER PRIMARY KEY, key_hash TEXT UNIQUE (the key of the store, kept
outside the record), created_at INTEGER NOT NULL, expires_at INTEGER NOT
NULL, activated_at INTEGER (nullable), activation_id TEXT (nullable),
revoked INTEGER DEFAULT 0 (0/1 flag, modelled as Bool), metadata TEXT. -/
structure LicenseRecord where
  id : Int
  created_at : Int
  expires_at : Int
  activated_at : Option Int
  activation_id : Option String
  revoked : Bool
  metadata : Option String
deriving DecidableEq, Repr

/-- the licenses table: rows keyed by key_hash (TEXT UNIQUE). -/
def Store := List (String × LicenseRecord)
deriving DecidableEq

/-- SELECT * FROM licenses WHERE key_hash=? : first row whose key matches
(key_hash is UNIQUE, so at most one row matches). -/
def get_license_row_by_hash (store : Store) (k_hash : String) : Option LicenseRecord :=
  match store with
  | [] => none
  | (h, r) :: rest => if h = k_hash then some r else get_license_row_by_hash rest k_hash

/-- UPDATE licenses SET activated_at=?, activation_id=? WHERE key_hash=? :
overwrites both fields on every row whose key matches, unconditionally.
In the source activate_license reads the clock itself; the timestamp it
stores is passed in as now here (the stored activated_at value is never
read back by the core logic). -/
def activate_license : Store → String → String → Int → Store
  | [], _, _, _ => []
  | (h, r) :: rest, k_hash, install_id, now =>
    (if h = k_hash then
      (h, { r with activated_at := some now, activation_id := some install_id })
    else (h, r)) :: activate_license rest k_hash install_id now

/-- outcome of the /validate_license endpoint: an accepted JSON body with
its message and expires_at field, or a rejected body with its message and
HTTP status code (400 or 403). -/
inductive Decision where
  | accepted (message : String) (expires_at : Int)
  | rejected (message : String) (status : Nat)
deriving DecidableEq, Repr

/-- the /validate_license handler of server.py: strip both request fields,
reject an empty key (400), hash and look the row up, check revoked, then
expiry (note the Python truthiness guard: the expiry test fires only when
expires_at is nonzero), then the activation branches.  Returns the decision
and the store after the request (changed only by the first-activation
branch, which calls activate_license). -/
def validate_license (hash_key : String → String) (store : Store)
    (license installation_id : String) (now : Int) : Decision × Store :=
  let license_key := strip license
  let install_id := strip installation_id
  if license_key = "" then
    (.rejected "Missing license." 400, store)
  else
    let k_hash := hash_key license_key
    match get_license_row_by_hash store k_hash with
    | none => (.rejected "Invalid license." 403, store)
    | some row =>
      if row.revoked then
        (.rejected "License revoked." 403, store)
      else if row.expires_at ≠ 0 ∧ now > row.expires_at then
        (.rejected "License expired." 403, store)
      else
        match row.activation_id with
        | none =>
          (.accepted "License activated." row.expires_at,
            activate_license store k_hash install_id now)
        | some aid =>
          if aid = install_id then
            (.accepted "Welcome back!" row.expires_at, store)
          else
            (.rejected "License already used on another device." 403, store)

/-- the read-and-decide half of validate_license: everything the handler
does up to (but not including) the activate_license call.  The single read
of the store (get_license_row_by_hash) is its own database transaction in
the source; all the computation around it is request-local.  The Bool
records whether the first-activation branch was taken, i.e. whether an
activate_license write is still owed by this request. -/
def validate_read (hash_key : String → String) (store : Store)
    (license installation_id : String) (now : Int) : Decision × Bool :=
  let license_key := strip license
  let install_id := strip installation_id
  if license_key = "" then
    (.rejected "Missing license." 400, false)
  else
    let k_hash := hash_key license_key
    match get_license_row_by_hash store k_hash with
    | none => (.rejected "Invalid license." 403, false)
    | some row =>
      if row.revoked then
        (.rejected "License revoked." 403, false)
      else if row.expires_at ≠ 0 ∧ now > row.expires_at then
        (.rejected "License expired." 403, false)
      else
        match row.activation_id with
        | none => (.accepted "License activated." row.expires_at, true)
        | some aid =>
          if aid = install_id then
            (.accepted "Welcome back!" row.expires_at, false)
          else
            (.rejected "License already used on another device." 403, false)

/-- two concurrent /validate_license requests for the same submitted key
under the schedule read1, read2, write1, write2.  In the source each of
get_license_row_by_hash and activate_license opens its own connection and
is a separate serialized transaction, so this interleaving is realizable:
both requests read the store before either write runs, then the owed
activate_license writes execute in request order.  Returns the two
decisions and the final store. -/
def validate_race (hash_key : String → String) (store : Store) (license : String)
    (inst1 inst2 : String) (now1 now2 : Int) : Decision × Decision × Store :=
  let r1 := validate_read hash_key store license inst1 now1
  let r2 := validate_read hash_key store license inst2 now2
  let s1 := if r1.2 then activate_license store (hash_key (strip license)) (strip inst1) now1 else store
  let s2 := if r2.2 then activate_license s1 (hash_key (strip license)) (strip inst2) now2 else s1
  (r1.1, r2.1, s2)

/-! generator side: generate_license.py -/

/-- one row of the licenses table as written by the generator
(store_hash inserts key_hash, created_at, expires_at, metadata; the other
columns stay at their defaults). -/
structure GenRecord where
  created_at : Int
  expires_at : Int
  metadata : Option String
deriving DecidableEq, Repr

/-- the generator-side licenses table, keyed by key_hash (TEXT UNIQUE). -/
def GenStore := List (String × GenRecord)
deriving DecidableEq

/-- lookup by key_hash in the generator-side table. -/
def gen_lookup (store : GenStore) (k_hash : String) : Option GenRecord :=
  match store with
  | [] => none
  | (h, r) :: rest => if h = k_hash then some r else gen_lookup rest k_hash

/-- store_hash of generate_license.py: INSERT OR IGNORE INTO licenses
(key_hash, created_at, expires_at, metadata) VALUES (?,?,?,?) with
expires = created + days_valid days (naive datetime + timedelta
arithmetic, i.e. days_valid * 86400 seconds).  OR IGNORE is the sqlite
conflict clause that silently skips the insert when key_hash already
exists: the existing row is kept untouched and, crucially, no
sqlite3.IntegrityError is raised.  The Except error type mirrors
sqlite3.IntegrityError, which this statement never raises for a
duplicate key. -/
def store_hash (store : GenStore) (key_hash : String) (now : Int)
    (days_valid : Int) (metadata : Option String) : Except String GenStore :=
  if (gen_lookup store key_hash).isSome then
    .ok store
  else
    .ok ((key_hash, GenRecord.mk now (now + days_valid * 86400) metadata) :: store)

/-- Python slice raw[i:i+4]. -/
def slice4 (l : List Char) (i : Nat) : List Char :=
  (l.drop i).take 4

/-- list level of the key formatting line of generate_license:
"-".join([raw[i:i+4] for i in range(0, 16, 4)]) — note range(0, 16, 4)
reads only the first 16 of the 32 hex characters of the uuid. -/
def format_key_list (l : List Char) : List Char :=
  slice4 l 0 ++ '-' :: (slice4 l 4 ++ '-' :: (slice4 l 8 ++ '-' :: slice4 l 12))

/-- Python str.upper() on the ASCII hex strings involved. -/
def str_upper (s : String) : String :=
  (s.toList.map Char.toUpper).asString

/-- the key built by generate_license from one uuid4().hex draw:
raw = uuid.uuid4().hex.upper(); key = "-".join([raw[i:i+4] for i in
range(0, 16, 4)]). -/
def mk_key (uuid_hex : String) : String :=
  (format_key_list (str_upper uuid_hex).toList).asString

/-- the attempt loop of generate_license: raws is the stream of successive
uuid4().hex draws (an input of the model; the source draws one per
attempt), attempt the loop counter of range(10).  Each attempt formats the
key, hashes it and calls store_hash inside try/except
sqlite3.IntegrityError: on success the key is returned (the admin-side
plaintext export is outside the core), on IntegrityError the loop retries,
raising RuntimeError when attempt == 9. -/
def generate_license_go (hash_key : String → String) (metadata : Option String)
    (days_valid now : Int) : GenStore → List String → Nat → Except String (String × GenStore)
  | _, [], _ => .error "uuid stream exhausted"
  | store, raw :: rest, attempt =>
    let key := mk_key raw
    let key_hash := hash_key key
    match store_hash store key_hash now days_valid metadata with
    | .ok st => .ok (key, st)
    | .error _ =>
      if attempt = 9 then
        .error "Failed to generate unique license after 10 attempts"
      else
        generate_license_go hash_key metadata days_valid now store rest (attempt + 1)

/-- generate_license(metadata, days_valid) run against a given store and
uuid stream. -/
def generate_license (hash_key : String → String) (store : GenStore) (raws : List String)
    (metadata : Option String) (days_valid now : Int) : Except String (String × GenStore) :=
  generate_license_go hash_key metadata days_valid now store raws 0

/-- the characters uuid4().hex is made of: lowercase hexadecimal digits
(listed high to low). -/
def lower_hex_chars : List Char :=
  [ 'f', 'e', 'd', 'c', 'b', 'a', '9', '8', '7', '6', '5', '4', '3', '2', '1', '0']

/-- uppercase hexadecimal digits, the alphabet of the formatted key groups
(listed high to low). -/
def upper_hex_chars : List Char :=
  [ 'F', 'E', 'D', 'C', 'B', 'A', '9', '8', '7', '6', '5', '4', '3', '2', '1', '0']

end LicenseProvider

namespace LicenseProvider

/-! supporting lemmas -/

/-- a list whose front is already clean of p keeps a clean front after its
back is stripped. -/
theorem dropWhile_rdropWhile_of_clean (p : Char → Bool) (m : List Char)
    (hm : m.dropWhile p = m) :
    (m.rdropWhile p).dropWhile p = m.rdropWhile p := by
  rw [List.dropWhile_eq_self_iff]
  intro hl
  have hpre : m.rdropWhile p <+: m := List.rdropWhile_prefix p m
  have hlm : 0 < m.length := lt_of_lt_of_le hl hpre.length_le
  have hget : (m.rdropWhile p).get ⟨0, hl⟩ = m.get ⟨0, hlm⟩ := by
    simpa using hpre.getElem hl
  rw [hget]
  exact List.dropWhile_eq_self_iff.mp hm hlm

/-- stripList is idempotent. -/
theorem stripList_idem (l : List Char) : stripList (stripList l) = stripList l := by
  have h : ∀ x : List Char, stripList x = (x.dropWhile is_py_space).rdropWhile is_py_space :=
    fun _ => rfl
  rw [h, h,
    dropWhile_rdropWhile_of_clean is_py_space _ (List.dropWhile_idempotent is_py_space l),
    List.rdropWhile_idempotent]

/-- Python str.strip() is idempotent. -/
theorem strip_idem (s : String) : strip (strip s) = strip s := by
  have h : (stripList s.toList).asString.toList = stripList s.toList := rfl
  simp only [strip, h, stripList_idem]

/-- looking the activated key up after activate_license yields the row with
activated_at and activation_id overwritten. -/
theorem get_activate_self (store : Store) (k i : String) (now : Int) (row : LicenseRecord)
    (h : get_license_row_by_hash store k = some row) :
    get_license_row_by_hash (activate_license store k i now) k =
      some { row with activated_at := some now, activation_id := some i } := by
  induction store with
  | nil => simp [get_license_row_by_hash] at h
  | cons e rest ih =>
    obtain ⟨hk, r⟩ := e
    rw [get_license_row_by_hash] at h
    rw [activate_license]
    by_cases hek : hk = k
    · subst hek
      rw [if_pos rfl] at h
      rw [if_pos rfl, get_license_row_by_hash, if_pos rfl]
      rw [Option.some.injEq] at h
      rw [h]
    · rw [if_neg hek] at h
      rw [if_neg hek, get_license_row_by_hash, if_neg hek]
      exact ih h

/-- validate_license is its read-and-decide half followed by the owed
activate_license write (if any): the decomposition behind the concurrency
model. -/
theorem validate_license_eq_read_then_write (hash_key : String → String) (store : Store)
    (license inst : String) (now : Int) :
    validate_license hash_key store license inst now =
      ((validate_read hash_key store license inst now).1,
        if (validate_read hash_key store license inst now).2 then
          activate_license store (hash_key (strip license)) (strip inst) now
        else store) := by
  by_cases h1 : strip license = ""
  · simp [validate_license, validate_read, h1]
  · rcases hrow : get_license_row_by_hash store (hash_key (strip license)) with _ | row
    · simp [validate_license, validate_read, h1, hrow]
    · by_cases hrev : row.revoked
      · simp [validate_license, validate_read, h1, hrow, hrev]
      · by_cases hexp : row.expires_at ≠ 0 ∧ now > row.expires_at
        · simp [validate_license, validate_read, h1, hrow, hrev, hexp]
        · rcases hact : row.activation_id with _ | aid
          · simp [validate_license, validate_read, h1, hrow, hrev, hexp, hact]
          · by_cases haid : aid = strip inst
            · simp [validate_license, validate_read, h1, hrow, hrev, hexp, hact, haid]
            · simp [validate_license, validate_read, h1, hrow, hrev, hexp, hact, haid]

/-! claim theorems -/

/-- C1: the claim fails on the code.  Under the realizable schedule read1,
read2, write1, write2 (each database statement is its own transaction),
two concurrent first validations of a never-activated license with
installation ids A and B both return Accepted with the activation message
— both succeed in binding — and the final activation_id is B: the UPDATE
of request 2 (the store's activate operation, invoked under request 2's
validation decision) changed activation_id from A, which request 1's
write had just set (second conjunct), to the different value B. -/
theorem activation_race_both_succeed :
    validate_race id [("K", ⟨1, 0, 100, none, none, false, none⟩)] "K" "A" "B" 5 6 =
      (.accepted "License activated." 100, .accepted "License activated." 100,
        [("K", ⟨1, 0, 100, some 6, some "B", false, none⟩)]) ∧
    activate_license [("K", ⟨1, 0, 100, none, none, false, none⟩)] "K" "A" 5 =
      [("K", ⟨1, 0, 100, some 5, some "A", false, none⟩)] ∧
    ("A" : String) ≠ "B" :=
  ⟨by decide, by decide, by decide⟩

/-- C2: the claim fails on the code.  store_hash uses INSERT OR IGNORE, so
inserting a fingerprint that already exists raises no IntegrityError: here
the store already holds the fingerprint of the key generated on attempt 0
(first conjunct), a fresh non-colliding uuid is available for a retry, yet
generate_license returns that same colliding key with the store unchanged
— no duplicate-fingerprint failure, no retry, no new record. -/
theorem duplicate_fingerprint_silently_ignored :
    (gen_lookup [(mk_key "0123456789abcdef0123456789abcdef", ⟨0, 2592000, none⟩)]
        (id (mk_key "0123456789abcdef0123456789abcdef"))).isSome = true ∧
    generate_license id
        [(mk_key "0123456789abcdef0123456789abcdef", ⟨0, 2592000, none⟩)]
        ["0123456789abcdef0123456789abcdef", "ffffffffffffffffffffffffffffffff"]
        none 30 0 =
      .ok (mk_key "0123456789abcdef0123456789abcdef",
        [(mk_key "0123456789abcdef0123456789abcdef", ⟨0, 2592000, none⟩)]) :=
  ⟨by decide, by rfl⟩

/-- C3: for every stored record with the revoked flag set and expires_at in
the past, validate_license rejects with the revocation message, never the
expiry message: the revocation check is made before the expiry check. -/
theorem revoked_takes_precedence_over_expiry (hash_key : String → String) (store : Store)
    (license inst : String) (now : Int) (row : LicenseRecord)
    (hkey : strip license ≠ "")
    (hrow : get_license_row_by_hash store (hash_key (strip license)) = some row)
    (hrev : row.revoked = true)
    (_hexp : now > row.expires_at) :
    validate_license hash_key store license inst now =
      (.rejected "License revoked." 403, store) := by
  simp [validate_license, hkey, hrow, hrev]

/-- witness for C3 at a concrete revoked-and-expired record. -/
theorem revoked_takes_precedence_over_expiry_witness :
    validate_license id [("K", ⟨1, 0, 10, none, none, true, none⟩)] "K" "A" 50 =
      (.rejected "License revoked." 403, [("K", ⟨1, 0, 10, none, none, true, none⟩)]) :=
  revoked_takes_precedence_over_expiry id _ "K" "A" 50 ⟨1, 0, 10, none, none, true, none⟩
    (by decide) (by decide) rfl (by decide)

/-- C6 as stated fails on the code: the expiry test is guarded by Python
truthiness of expires_at, so a stored non-revoked record with
expires_at = 0 is not rejected as expired at now = 5 > 0 — the call
activates it instead. -/
theorem zero_expiry_not_rejected_counterexample :
    (LicenseRecord.mk 1 0 0 none none false none).revoked = false ∧
    (5 : Int) > (LicenseRecord.mk 1 0 0 none none false none).expires_at ∧
    (validate_license id [("K", LicenseRecord.mk 1 0 0 none none false none)] "K" "A" 5).1 =
      .accepted "License activated." 0 :=
  ⟨rfl, by decide, by decide⟩

/-- C6 amended: for every stored, non-revoked license record with nonzero
expires_at, current time strictly past expires_at is rejected as expired;
and the 30-day example holds: a license created at t = 0 with 30-day
validity is accepted at 29 days (2505600 s) and, validated again on the
resulting store, rejected as expired at 31 days (2678400 s). -/
theorem license_expired_rejection :
    (∀ (hash_key : String → String) (store : Store) (license inst : String) (now : Int)
        (row : LicenseRecord),
      strip license ≠ "" →
      get_license_row_by_hash store (hash_key (strip license)) = some row →
      row.revoked = false →
      row.expires_at ≠ 0 →
      now > row.expires_at →
      validate_license hash_key store license inst now =
        (.rejected "License expired." 403, store)) ∧
    validate_license id [("K", ⟨1, 0, 2592000, none, none, false, none⟩)] "K" "dev" 2505600 =
      (.accepted "License activated." 2592000,
        [("K", ⟨1, 0, 2592000, some 2505600, some "dev", false, none⟩)]) ∧
    validate_license id [("K", ⟨1, 0, 2592000, some 2505600, some "dev", false, none⟩)]
        "K" "dev" 2678400 =
      (.rejected "License expired." 403,
        [("K", ⟨1, 0, 2592000, some 2505600, some "dev", false, none⟩)]) := by
  refine ⟨?_, by decide, by decide⟩
  intro hash_key store license inst now row hkey hrow hrev hne hexp
  simp [validate_license, hkey, hrow, hrev, hne, hexp]

/-- witness for C6 (amended) at a concrete expired record. -/
theorem license_expired_rejection_witness :
    validate_license id [("K2", ⟨1, 0, 100, none, none, false, none⟩)] "K2" "dev" 101 =
      (.rejected "License expired." 403, [("K2", ⟨1, 0, 100, none, none, false, none⟩)]) :=
  license_expired_rejection.1 id _ "K2" "dev" 101 ⟨1, 0, 100, none, none, false, none⟩
    (by decide) (by decide) rfl (by decide) (by decide)

/-- C7: every rejected outcome of validate_license — missing key, unknown
fingerprint, revoked, expired, or device mismatch — leaves the store
unchanged; only the accepted first-activation branch writes. -/
theorem rejection_preserves_store (hash_key : String → String) (store : Store)
    (license inst : String) (now : Int) (msg : String) (code : Nat)
    (h : (validate_license hash_key store license inst now).1 = .rejected msg code) :
    (validate_license hash_key store license inst now).2 = store := by
  by_cases h1 : strip license = ""
  · simp [validate_license, h1]
  · rcases hrow : get_license_row_by_hash store (hash_key (strip license)) with _ | row
    · simp [validate_license, h1, hrow]
    · by_cases hrev : row.revoked = true
      · simp [validate_license, h1, hrow, hrev]
      · by_cases hexp : row.expires_at ≠ 0 ∧ now > row.expires_at
        · simp [validate_license, h1, hrow, hrev, hexp]
        · rcases hact : row.activation_id with _ | aid
          · simp [validate_license, h1, hrow, hrev, hexp, hact] at h
          · by_cases haid : aid = strip inst
            · simp [validate_license, h1, hrow, hrev, hexp, hact, haid] at h
            · simp [validate_license, h1, hrow, hrev, hexp, hact, haid]

/-- witness for C7 at a concrete rejected call (unknown fingerprint). -/
theorem rejection_preserves_store_witness :
    (validate_license id ([] : Store) "K" "A" 0).1 = .rejected "Invalid license." 403 ∧
    (validate_license id ([] : Store) "K" "A" 0).2 = ([] : Store) :=
  ⟨by decide, rejection_preserves_store id ([] : Store) "K" "A" 0 "Invalid license." 403 (by decide)⟩

/-- C4: a freshly issued record (activated_at and activation_id absent, not
revoked, unexpired at each call) is activated and accepted with the
activation message on the first call, and every later unexpired call with
the same installation id on the resulting store is accepted with the
welcome-back message and leaves the store unchanged: the bound state is
stable under repeated calls with the same installation id. -/
theorem fresh_license_activates_then_welcome_back (hash_key : String → String)
    (store : Store) (license inst : String) (now1 : Int) (row : LicenseRecord)
    (hkey : strip license ≠ "")
    (hrow : get_license_row_by_hash store (hash_key (strip license)) = some row)
    (hrev : row.revoked = false)
    (haid : row.activation_id = none)
    (_hat : row.activated_at = none)
    (hexp1 : ¬(row.expires_at ≠ 0 ∧ now1 > row.expires_at)) :
    validate_license hash_key store license inst now1 =
      (.accepted "License activated." row.expires_at,
        activate_license store (hash_key (strip license)) (strip inst) now1) ∧
    ∀ now2 : Int, ¬(row.expires_at ≠ 0 ∧ now2 > row.expires_at) →
      validate_license hash_key
          (activate_license store (hash_key (strip license)) (strip inst) now1)
          license inst now2 =
        (.accepted "Welcome back!" row.expires_at,
          activate_license store (hash_key (strip license)) (strip inst) now1) := by
  constructor
  · simp [validate_license, hkey, hrow, hrev, hexp1, haid]
  · intro now2 hexp2
    have hrow2 := get_activate_self store (hash_key (strip license)) (strip inst) now1 row hrow
    simp [validate_license, hkey, hrow2, hrev, hexp2]

/-- witness for C4: activation at t = 5, welcome back at t = 7. -/
theorem fresh_license_activates_then_welcome_back_witness :
    validate_license id [("K", ⟨1, 0, 100, none, none, false, none⟩)] "K" "A" 5 =
      (.accepted "License activated." 100,
        [("K", ⟨1, 0, 100, some 5, some "A", false, none⟩)]) ∧
    validate_license id [("K", ⟨1, 0, 100, some 5, some "A", false, none⟩)] "K" "A" 7 =
      (.accepted "Welcome back!" 100,
        [("K", ⟨1, 0, 100, some 5, some "A", false, none⟩)]) := by
  have h := fresh_license_activates_then_welcome_back id
    [("K", ⟨1, 0, 100, none, none, false, none⟩)] "K" "A" 5
    ⟨1, 0, 100, none, none, false, none⟩ (by decide) rfl rfl rfl rfl (by decide)
  exact ⟨h.1, h.2 7 (by decide)⟩

/-- C5: a never-activated, unexpired, non-revoked license validated first
with one installation id and then, on the resulting store, with a second
installation id that strips to a different string, is accepted on the
first call and rejected with the device-mismatch message on the second. -/
theorem second_device_rejected (hash_key : String → String)
    (store : Store) (license inst1 inst2 : String) (now1 now2 : Int) (row : LicenseRecord)
    (hkey : strip license ≠ "")
    (hrow : get_license_row_by_hash store (hash_key (strip license)) = some row)
    (hrev : row.revoked = false)
    (haid : row.activation_id = none)
    (_hat : row.activated_at = none)
    (hne : strip inst1 ≠ strip inst2)
    (hexp1 : ¬(row.expires_at ≠ 0 ∧ now1 > row.expires_at))
    (hexp2 : ¬(row.expires_at ≠ 0 ∧ now2 > row.expires_at)) :
    (validate_license hash_key store license inst1 now1).1 =
      .accepted "License activated." row.expires_at ∧
    validate_license hash_key (validate_license hash_key store license inst1 now1).2
        license inst2 now2 =
      (.rejected "License already used on another device." 403,
        (validate_license hash_key store license inst1 now1).2) := by
  have h1 : validate_license hash_key store license inst1 now1 =
      (.accepted "License activated." row.expires_at,
        activate_license store (hash_key (strip license)) (strip inst1) now1) := by
    simp [validate_license, hkey, hrow, hrev, hexp1, haid]
  have hrow2 := get_activate_self store (hash_key (strip license)) (strip inst1) now1 row hrow
  rw [h1]
  exact ⟨rfl, by simp [validate_license, hkey, hrow2, hrev, hexp2, hne]⟩

/-- witness for C5: installation id A activates, installation id B is then
rejected as already used on another device. -/
theorem second_device_rejected_witness :
    (validate_license id [("K", ⟨1, 0, 100, none, none, false, none⟩)] "K" "A" 5).1 =
      .accepted "License activated." 100 ∧
    validate_license id
        (validate_license id [("K", ⟨1, 0, 100, none, none, false, none⟩)] "K" "A" 5).2
        "K" "B" 7 =
      (.rejected "License already used on another device." 403,
        (validate_license id [("K", ⟨1, 0, 100, none, none, false, none⟩)] "K" "A" 5).2) :=
  second_device_rejected id [("K", ⟨1, 0, 100, none, none, false, none⟩)] "K" "A" "B" 5 7
    ⟨1, 0, 100, none, none, false, none⟩ (by decide) rfl rfl rfl rfl (by decide)
    (by decide) (by decide)

/-- C9: the decision of validate_license is invariant under leading and
trailing whitespace of both request fields, because the handler strips
both before fingerprinting and comparison and strip is idempotent; in
particular a whitespace-only license string is rejected as a missing
license with status 400. -/
theorem validate_strip_invariant (hash_key : String → String) (store : Store)
    (license inst : String) (now : Int) :
    validate_license hash_key store license inst now =
      validate_license hash_key store (strip license) (strip inst) now ∧
    (strip license = "" →
      validate_license hash_key store license inst now =
        (.rejected "Missing license." 400, store)) := by
  constructor
  · simp only [validate_license, strip_idem]
  · intro h
    simp [validate_license, h]

/-- witness for C9: stripping is immaterial on a concrete padded request,
and a whitespace-only license is rejected as missing. -/
theorem validate_strip_invariant_witness :
    validate_license id ([] : Store) " K " " A " 3 =
      validate_license id ([] : Store) (strip " K ") (strip " A ") 3 ∧
    validate_license id ([] : Store) " \t " "A" 3 =
      (.rejected "Missing license." 400, ([] : Store)) :=
  ⟨(validate_strip_invariant id ([] : Store) " K " " A " 3).1,
    (validate_strip_invariant id ([] : Store) " \t " "A" 3).2 (by decide)⟩

/-- C10: validate_license never rejects for lack of an installation id: on
a stored, unexpired, non-revoked, never-activated license, a request whose
installation_id strips to the empty string is accepted and binds
activation_id to the empty string, and a later request for that license
whose installation_id also strips empty is accepted with the welcome-back
message. -/
theorem empty_installation_id_accepted (hash_key : String → String)
    (store : Store) (license inst1 inst2 : String) (now1 now2 : Int) (row : LicenseRecord)
    (hkey : strip license ≠ "")
    (hrow : get_license_row_by_hash store (hash_key (strip license)) = some row)
    (hrev : row.revoked = false)
    (haid : row.activation_id = none)
    (hi1 : strip inst1 = "")
    (hi2 : strip inst2 = "")
    (hexp1 : ¬(row.expires_at ≠ 0 ∧ now1 > row.expires_at))
    (hexp2 : ¬(row.expires_at ≠ 0 ∧ now2 > row.expires_at)) :
    validate_license hash_key store license inst1 now1 =
      (.accepted "License activated." row.expires_at,
        activate_license store (hash_key (strip license)) "" now1) ∧
    get_license_row_by_hash (activate_license store (hash_key (strip license)) "" now1)
        (hash_key (strip license)) =
      some { row with activated_at := some now1, activation_id := some "" } ∧
    validate_license hash_key (activate_license store (hash_key (strip license)) "" now1)
        license inst2 now2 =
      (.accepted "Welcome back!" row.expires_at,
        activate_license store (hash_key (strip license)) "" now1) := by
  have hrow2 := get_activate_self store (hash_key (strip license)) "" now1 row hrow
  refine ⟨?_, hrow2, ?_⟩
  · simp [validate_license, hkey, hrow, hrev, hexp1, haid, hi1]
  · simp [validate_license, hkey, hrow2, hrev, hexp2, hi2]

/-- witness for C10: whitespace-only installation id binds the empty
string and is welcomed back by an empty installation id. -/
theorem empty_installation_id_accepted_witness :
    validate_license id [("K", ⟨1, 0, 100, none, none, false, none⟩)] "K" "  " 5 =
      (.accepted "License activated." 100,
        [("K", ⟨1, 0, 100, some 5, some "", false, none⟩)]) ∧
    get_license_row_by_hash [("K", ⟨1, 0, 100, some 5, some "", false, none⟩)] "K" =
      some ⟨1, 0, 100, some 5, some "", false, none⟩ ∧
    validate_license id [("K", ⟨1, 0, 100, some 5, some "", false, none⟩)] "K" "" 7 =
      (.accepted "Welcome back!" 100,
        [("K", ⟨1, 0, 100, some 5, some "", false, none⟩)]) :=
  empty_installation_id_accepted id [("K", ⟨1, 0, 100, none, none, false, none⟩)]
    "K" "  " "" 5 7 ⟨1, 0, 100, none, none, false, none⟩
    (by decide) rfl rfl rfl (by decide) rfl (by decide) (by decide)

/-- uppercasing a lowercase hexadecimal digit yields an uppercase one. -/
theorem toUpper_lower_hex (c : Char) (hc : c ∈ lower_hex_chars) :
    Char.toUpper c ∈ upper_hex_chars := by
  simp only [lower_hex_chars, List.mem_cons, List.not_mem_nil, or_false] at hc
  rcases hc with rfl | rfl | rfl | rfl | rfl | rfl | rfl | rfl |
    rfl | rfl | rfl | rfl | rfl | rfl | rfl | rfl <;> decide

/-- four leading 4-chunks of a list assemble to its 16-element front. -/
theorem take_four_chunks (l : List Char) :
    l.take 16 = l.take 4 ++ ((l.drop 4).take 4 ++ ((l.drop 8).take 4 ++ (l.drop 12).take 4)) := by
  have h1 := List.take_add l 4 12
  have h2 := List.take_add (l.drop 4) 4 8
  have h3 := List.take_add ((l.drop 4).drop 4) 4 4
  rw [List.drop_drop] at h2 h3
  norm_num at h1 h2 h3
  rw [h2, h3] at h1
  exact h1

/-- C8 as stated fails: the key does not encode the 128-bit uuid value.
Two distinct 32-character uuid hex draws that agree on their first 16
characters produce the same key, because the formatting line reads only
raw[0:16]. -/
theorem key_drops_half_the_uuid_counterexample :
    ("0123456789abcdef0000000000000000" : String) ≠ "0123456789abcdef1111111111111111" ∧
    ("0123456789abcdef0000000000000000" : String).toList.length = 32 ∧
    ("0123456789abcdef1111111111111111" : String).toList.length = 32 ∧
    (∀ c ∈ ("0123456789abcdef0000000000000000" : String).toList, c ∈ lower_hex_chars) ∧
    (∀ c ∈ ("0123456789abcdef1111111111111111" : String).toList, c ∈ lower_hex_chars) ∧
    mk_key "0123456789abcdef0000000000000000" = mk_key "0123456789abcdef1111111111111111" :=
  ⟨by decide, by decide, by decide, by decide, by decide, by decide⟩

/-- C8 amended: every key built by generate_license from a 32-character
lowercase-hex uuid4().hex draw has the shape XXXX-XXXX-XXXX-XXXX — four
groups of four uppercase hexadecimal characters separated by hyphens —
and the sixteen group characters are exactly the uppercased first sixteen
hex characters (a 64-bit value), not all thirty-two. -/
theorem key_shape_four_groups (raw : String)
    (h32 : raw.toList.length = 32)
    (hhex : ∀ c ∈ raw.toList, c ∈ lower_hex_chars) :
    ∃ g1 g2 g3 g4 : List Char,
      (mk_key raw).toList = g1 ++ '-' :: (g2 ++ '-' :: (g3 ++ '-' :: g4)) ∧
      g1.length = 4 ∧ g2.length = 4 ∧ g3.length = 4 ∧ g4.length = 4 ∧
      (∀ c, (c ∈ g1 ∨ c ∈ g2 ∨ c ∈ g3 ∨ c ∈ g4) → c ∈ upper_hex_chars) ∧
      g1 ++ (g2 ++ (g3 ++ g4)) = ((str_upper raw).toList).take 16 := by
  have hml : ((str_upper raw).toList).length = 32 := by
    have : (str_upper raw).toList = raw.toList.map Char.toUpper := rfl
    rw [this, List.length_map, h32]
  have hmem : ∀ c ∈ (str_upper raw).toList, c ∈ upper_hex_chars := by
    intro c hcm
    have : (str_upper raw).toList = raw.toList.map Char.toUpper := rfl
    rw [this] at hcm
    obtain ⟨d, hd, rfl⟩ := List.mem_map.mp hcm
    exact toUpper_lower_hex d (hhex d hd)
  have hslice : ∀ i : Nat, i + 4 ≤ 32 → (slice4 (str_upper raw).toList i).length = 4 := by
    intro i hi
    simp only [slice4, List.length_take, List.length_drop, hml]
    omega
  refine ⟨slice4 (str_upper raw).toList 0, slice4 (str_upper raw).toList 4,
    slice4 (str_upper raw).toList 8, slice4 (str_upper raw).toList 12, rfl,
    hslice 0 (by norm_num), hslice 4 (by norm_num), hslice 8 (by norm_num),
    hslice 12 (by norm_num), ?_, ?_⟩
  · intro c hc
    refine hmem c ?_
    rcases hc with h | h | h | h <;>
      exact List.drop_subset _ _ (List.take_subset _ _ h)
  · have h := take_four_chunks (str_upper raw).toList
    simp only [slice4, List.drop_zero]
    exact h.symm

/-- witness for C8 (amended) at a concrete uuid draw. -/
theorem key_shape_four_groups_witness :
    ("0123456789abcdef0123456789abcdef" : String).toList.length = 32 ∧
    (∃ g1 g2 g3 g4 : List Char,
      (mk_key "0123456789abcdef0123456789abcdef").toList =
        g1 ++ '-' :: (g2 ++ '-' :: (g3 ++ '-' :: g4)) ∧
      g1.length = 4 ∧ g2.length = 4 ∧ g3.length = 4 ∧ g4.length = 4 ∧
      (∀ c, (c ∈ g1 ∨ c ∈ g2 ∨ c ∈ g3 ∨ c ∈ g4) → c ∈ upper_hex_chars) ∧
      g1 ++ (g2 ++ (g3 ++ g4)) =
        ((str_upper "0123456789abcdef0123456789abcdef").toList).take 16) :=
  ⟨by decide, key_shape_four_groups "0123456789abcdef0123456789abcdef" (by decide) (by decide)⟩

end LicenseProvider
